import Mathlib

/-!
# Verification of the picturium-libvips image-handle layer

A shallow embedding of `src/image.rs`: the `VipsImage` handle type, its three
construction paths, its accessors, and its lifecycle operations (`kill`,
`cleanup`, `Drop`).  Native (FFI) calls are modelled by passing their outcomes
as explicit arguments, and, for the lifecycle claims, by an explicit state of
native reference counts and kill flags plus a trace of native-call events.
-/

namespace PicturiumLibvips

/-- Raw pointers are modelled as natural numbers; `0` is the null pointer. -/
abbrev Ptr := Nat

/-- Embedding of `pub struct VipsImage(pub *mut CVipsImage, pub(crate) Option<Vec<VipsImage>>)`:
a native image pointer together with the optional list of kept-alive child handles. -/
inductive VipsImage where
  | mk (ptr : Ptr) (children : Option (List VipsImage))
deriving Repr

/-- First field of the handle: the native image pointer (`self.0`). -/
def VipsImage.ptr : VipsImage → Ptr
  | .mk p _ => p

/-- Second field of the handle: the kept-alive children (`self.1`). -/
def VipsImage.children : VipsImage → Option (List VipsImage)
  | .mk _ c => c

/-- Modelled from the spec: the error enum of `crate::result` (not under `src/`).
Spec §7 lists three kinds: `ImageLoadError(message)`, `ImageMetadataError(message)`,
and a string-conversion error for strings that cannot be marshaled. -/
inductive Error where
  | ImageLoadError (msg : String)
  | ImageMetadataError (msg : String)
  | StringConversionError
deriving Repr, DecidableEq

/-- Does the string contain an embedded NUL terminator byte? -/
def hasNul (s : String) : Bool :=
  s.toList.contains (Char.ofNat 0)

/-- Modelled from the spec: `crate::utils::c_string` (not under `src/`), the
string-marshaling helper of spec §6, "fallible if the string contains an
embedded terminator the boundary cannot represent". On success it yields the
marshaled string. -/
def c_string (s : String) : Except Error String :=
  if hasNul s then Except.error Error.StringConversionError else Except.ok s

/-- Modelled from the spec: `crate::options::FromFileOptions` (not under `src/`);
per spec §4.1 it carries a memory-mapping flag and an access-pattern mode. -/
structure FromFileOptions where
  memory : Bool
  access : Int

/-- Modelled from the spec: `crate::FromSvgOptions` (not under `src/`); per spec
§4.1/§6 it carries dpi, scale, unlimited, flags bitmask, fail-on severity,
revalidation flag and memory/access settings. -/
structure FromSvgOptions where
  dpi : Float
  scale : Float
  unlimited : Bool
  flags : Int
  memory : Bool
  access : Int
  fail_on : Int
  revalidate : Bool

/-- Embedding of `VipsImage::new_from_file`: marshals the filename (and, when options are
given, the parameter-name literals), then invokes the native loader.  The
native call's outcome is the `nativeResult` pointer; `lastError` is the
engine's diagnostic (`Vips::get_error()`).  A null result is translated to
`ImageLoadError`; otherwise the pointer is wrapped with no children. -/
def new_from_file (filename : String) (options : Option FromFileOptions)
    (nativeResult : Ptr) (lastError : String) : Except Error VipsImage := do
  let _ ← c_string filename
  match options with
  | some _ => do
    let _ ← c_string "memory"
    let _ ← c_string "access"
    pure ()
  | none => pure ()
  if nativeResult = 0 then
    Except.error (Error.ImageLoadError lastError)
  else
    Except.ok (VipsImage.mk nativeResult none)

/-- Embedding of `VipsImage::new_from_svg`: marshals the filename (and parameter-name
literals when options are given), then invokes `vips_svgload`, whose outcome
is the `status` code and the `outputImage` out-pointer.  Fails with
`ImageLoadError` when the status is nonzero or the out-pointer is null. -/
def new_from_svg (filename : String) (options : Option FromSvgOptions)
    (status : Int) (outputImage : Ptr) (lastError : String) :
    Except Error VipsImage := do
  let _ ← c_string filename
  match options with
  | some _ => do
    let _ ← c_string "dpi"
    let _ ← c_string "scale"
    let _ ← c_string "unlimited"
    let _ ← c_string "flags"
    let _ ← c_string "memory"
    let _ ← c_string "access"
    let _ ← c_string "fail_on"
    let _ ← c_string "revalidate"
    pure ()
  | none => pure ()
  if status ≠ 0 ∨ outputImage = 0 then
    Except.error (Error.ImageLoadError lastError)
  else
    Except.ok (VipsImage.mk outputImage none)

/-- Embedding of `VipsImage::new_from_image`: invokes `vips_image_new_from_image` on the
source handle's pointer and the per-band value slice; the native outcome is
the `nativeResult` pointer.  Null is translated to `ImageLoadError`. -/
def new_from_image (image : VipsImage) (bands : List Float)
    (nativeResult : Ptr) (lastError : String) : Except Error VipsImage :=
  let _ := image.ptr
  let _ := bands
  if nativeResult = 0 then
    Except.error (Error.ImageLoadError lastError)
  else
    Except.ok (VipsImage.mk nativeResult none)

/-- Embedding of `VipsImage::new_from_self`: defined, as in the source, as
`Self::new_from_image(self, bands)`. -/
def VipsImage.new_from_self (self : VipsImage) (bands : List Float)
    (nativeResult : Ptr) (lastError : String) : Except Error VipsImage :=
  new_from_image self bands nativeResult lastError

/-! ## Accessors

The dimension/band/page accessors are thin read-throughs to the native
object's fields; the native heap is modelled as a total map from pointers to
native image records. -/

/-- The fields of a native `VipsImage` object that the accessors read. -/
structure NativeImage where
  width : Int
  height : Int
  Bands : Int
  nPages : Int
  hasalpha : Int

/-- The native heap: what object each pointer refers to. -/
abbrev Heap := Ptr → NativeImage

/-- Embedding of `vips_image_get_width`. -/
def vips_image_get_width (heap : Heap) (p : Ptr) : Int := (heap p).width

/-- Embedding of `vips_image_get_height`. -/
def vips_image_get_height (heap : Heap) (p : Ptr) : Int := (heap p).height

/-- Embedding of `vips_image_get_n_pages`. -/
def vips_image_get_n_pages (heap : Heap) (p : Ptr) : Int := (heap p).nPages

/-- Embedding of `vips_image_hasalpha`. -/
def vips_image_hasalpha (heap : Heap) (p : Ptr) : Int := (heap p).hasalpha

/-- Embedding of `VipsImage::get_width`. -/
def VipsImage.get_width (heap : Heap) (self : VipsImage) : Int :=
  vips_image_get_width heap self.ptr

/-- Embedding of `VipsImage::get_height`. -/
def VipsImage.get_height (heap : Heap) (self : VipsImage) : Int :=
  vips_image_get_height heap self.ptr

/-- Embedding of `VipsImage::get_dimensions`: `(self.get_width(), self.get_height())`. -/
def VipsImage.get_dimensions (heap : Heap) (self : VipsImage) : Int × Int :=
  (self.get_width heap, self.get_height heap)

/-- Embedding of `VipsImage::get_bands`: reads the `Bands` field through the pointer. -/
def VipsImage.get_bands (heap : Heap) (self : VipsImage) : Int :=
  (heap self.ptr).Bands

/-- Embedding of `VipsImage::get_page_count`. -/
def VipsImage.get_page_count (heap : Heap) (self : VipsImage) : Int :=
  vips_image_get_n_pages heap self.ptr

/-- Embedding of `VipsImage::is_transparent`: `vips_image_hasalpha(self.0) == 1`. -/
def VipsImage.is_transparent (heap : Heap) (self : VipsImage) : Bool :=
  vips_image_hasalpha heap self.ptr == 1

/-- Embedding of `VipsImage::has_property`: marshals the property name, then asks
`vips_image_get_typeof` (modelled by the oracle `typeofOracle`, giving the
GType the native engine reports for each marshaled name) and returns whether
it is positive. -/
def VipsImage.has_property (self : VipsImage) (typeofOracle : String → Int)
    (property : String) : Except Error Bool := do
  let _ := self.ptr
  let p ← c_string property
  Except.ok (decide (typeofOracle p > 0))

/-- Embedding of `std::slice::from_raw_parts(output, length).to_vec()`: the `length` bytes
of native memory starting at `output`. -/
def from_raw_parts (mem : Nat → UInt8) (output : Ptr) (length : Nat) :
    List UInt8 :=
  (List.range length).map (fun i => mem (output + i))

/-- Embedding of `VipsImage::get_blob`: marshals the property name, invokes
`vips_image_get_blob` (outcome: `status`, out-pointer `output`, reported
`length`), fails with `ImageMetadataError` on nonzero status, and otherwise
copies the native-owned byte range `[output, output+length)` into an owned
buffer. -/
def VipsImage.get_blob (self : VipsImage) (property : String) (status : Int)
    (mem : Nat → UInt8) (output : Ptr) (length : Nat) (lastError : String) :
    Except Error (List UInt8) := do
  let _ := self.ptr
  let _ ← c_string property
  if status ≠ 0 then
    Except.error (Error.ImageMetadataError lastError)
  else
    Except.ok (from_raw_parts mem output length)

/-! ## Lifecycle: state model

Native reference counts and kill flags, for the claims about how many times
the reference is released and what repeating `cleanup` does. -/

/-- The engine-side state the lifecycle operations touch: per-object GObject
reference counts and per-image kill flags. -/
structure GObjectState where
  refcount : Ptr → Int
  killFlag : Ptr → Bool

/-- Embedding of `vips_image_set_kill(image, kill)`: sets the image's kill flag. -/
def vips_image_set_kill (s : GObjectState) (p : Ptr) (v : Int) : GObjectState :=
  { s with killFlag := fun q => if q = p then decide (v ≠ 0) else s.killFlag q }

/-- Embedding of `g_object_unref(object)`: decrements the object's reference count. -/
def g_object_unref (s : GObjectState) (p : Ptr) : GObjectState :=
  { s with refcount := fun q => if q = p then s.refcount q - 1 else s.refcount q }

/-- Embedding of `VipsImage::kill`: `vips_image_set_kill(self.0, 1)`. -/
def VipsImage.kill (s : GObjectState) (self : VipsImage) : GObjectState :=
  vips_image_set_kill s self.ptr 1

/-- Embedding of `VipsImage::cleanup`: `self.kill()`, then `g_object_unref(self.0)` when the
stored pointer is non-null.  Takes `&self`: the handle itself (and in
particular its stored pointer) is not modified. -/
def VipsImage.cleanup (s : GObjectState) (self : VipsImage) : GObjectState :=
  let s1 := self.kill s
  if self.ptr ≠ 0 then g_object_unref s1 self.ptr else s1

/-- Embedding of `impl Drop for VipsImage`: the `drop` body is exactly `self.cleanup()`. -/
def VipsImage.drop (s : GObjectState) (self : VipsImage) : GObjectState :=
  self.cleanup s

/-! ## Lifecycle: trace model

For the ordering and counting claims we also record the sequence of native
calls a handle performs. -/

/-- A native lifecycle call observable by the engine. -/
inductive NativeEvent where
  | setKill (p : Ptr)
  | unref (p : Ptr)
deriving Repr, DecidableEq

/-- The native calls performed by one execution of `VipsImage::kill`. -/
def killTrace (self : VipsImage) : List NativeEvent :=
  [NativeEvent.setKill self.ptr]

/-- The native calls performed by one execution of `VipsImage::cleanup`:
first the kill signal, then — only when the stored pointer is non-null — the
reference release. -/
def cleanupTrace (self : VipsImage) : List NativeEvent :=
  killTrace self ++ (if self.ptr ≠ 0 then [NativeEvent.unref self.ptr] else [])

/-- The native calls performed by the handle's destruction
(`Drop::drop` runs `self.cleanup()`). -/
def dropTrace (self : VipsImage) : List NativeEvent :=
  cleanupTrace self

/-- The native calls a handle performs over its whole lifetime when `kill` is
called `n` times before the handle is destroyed. -/
def lifetimeTrace (n : Nat) (self : VipsImage) : List NativeEvent :=
  (List.flatten (List.replicate n (killTrace self))) ++ dropTrace self

/-- How many times a trace releases (unrefs) the native reference `p`. -/
def releaseCount (t : List NativeEvent) (p : Ptr) : Nat :=
  t.countP (fun e => decide (e = NativeEvent.unref p))

/-- Running a trace of native calls against the engine state; sanity link
between the trace model and the state model. -/
def runTrace (s : GObjectState) : List NativeEvent → GObjectState
  | [] => s
  | NativeEvent.setKill p :: rest => runTrace (vips_image_set_kill s p 1) rest
  | NativeEvent.unref p :: rest => runTrace (g_object_unref s p) rest

/-- Embedding of `VipsImage::keepalive`: appends a child handle to `self.1`, initializing
the list on first use. -/
def VipsImage.keepalive (self : VipsImage) (image : VipsImage) : VipsImage :=
  match self with
  | .mk p none => .mk p (some [image])
  | .mk p (some cs) => .mk p (some (cs ++ [image]))

mutual

/-- Embedding of `derive(Clone)` on `VipsImage`: the raw pointer is copied and the optional
child vector is cloned element-wise (each element recursively cloned). -/
def VipsImage.clone : VipsImage → VipsImage
  | .mk p cs => .mk p (cloneChildren cs)

/-- Embedding of `Clone` for the handle's `Option<Vec<VipsImage>>` field. -/
def cloneChildren : Option (List VipsImage) → Option (List VipsImage)
  | none => none
  | some l => some (cloneList l)

/-- Embedding of `Clone` for `Vec<VipsImage>`: element-wise. -/
def cloneList : List VipsImage → List VipsImage
  | [] => []
  | x :: xs => x.clone :: cloneList xs

end

/-- Does a construction/query result signal failure? -/
def isErr {α : Type} : Except Error α → Bool
  | .error _ => true
  | .ok _ => false

/-- A concrete engine state: every object has reference count 1, nothing is
killed yet. -/
def sampleState : GObjectState :=
  { refcount := fun _ => 1, killFlag := fun _ => false }

/-- A concrete handle wrapping the non-null pointer `1`, no children. -/
def sampleHandle : VipsImage := VipsImage.mk 1 none

/-- A handle whose stored pointer is null (never produced by a successful
construction, but expressible as a raw value of the type). -/
def nullHandle : VipsImage := VipsImage.mk 0 none

/-! ## Helper lemmas -/

theorem c_string_ok (s : String) (h : hasNul s = false) :
    c_string s = Except.ok s := by
  simp [c_string, h]

theorem c_string_memory : c_string "memory" = Except.ok "memory" :=
  c_string_ok _ (by decide)

theorem c_string_access : c_string "access" = Except.ok "access" :=
  c_string_ok _ (by decide)

theorem c_string_dpi : c_string "dpi" = Except.ok "dpi" :=
  c_string_ok _ (by decide)

theorem c_string_scale : c_string "scale" = Except.ok "scale" :=
  c_string_ok _ (by decide)

theorem c_string_unlimited : c_string "unlimited" = Except.ok "unlimited" :=
  c_string_ok _ (by decide)

theorem c_string_flags : c_string "flags" = Except.ok "flags" :=
  c_string_ok _ (by decide)

theorem c_string_fail_on : c_string "fail_on" = Except.ok "fail_on" :=
  c_string_ok _ (by decide)

theorem c_string_revalidate : c_string "revalidate" = Except.ok "revalidate" :=
  c_string_ok _ (by decide)

theorem except_bind_ok {α β : Type} (a : α) (f : α → Except Error β) :
    (Except.ok a >>= f) = f a := rfl

theorem except_pure_ok {α : Type} (a : α) :
    (pure a : Except Error α) = Except.ok a := rfl

theorem except_bind_error {α β : Type} (e : Error) (f : α → Except Error β) :
    (Except.error e >>= f) = Except.error e := rfl

theorem releaseCount_killTrace (h : VipsImage) (p : Ptr) :
    releaseCount (killTrace h) p = 0 := by
  simp [releaseCount, killTrace, List.countP, List.countP.go]

theorem releaseCount_append (t1 t2 : List NativeEvent) (p : Ptr) :
    releaseCount (t1 ++ t2) p = releaseCount t1 p + releaseCount t2 p := by
  simp [releaseCount, List.countP_append]

theorem releaseCount_kills (n : Nat) (h : VipsImage) (p : Ptr) :
    releaseCount (List.flatten (List.replicate n (killTrace h))) p = 0 := by
  induction n with
  | zero => rfl
  | succ k ih =>
    rw [List.replicate_succ, List.flatten_cons, releaseCount_append,
      releaseCount_killTrace, ih]

theorem new_from_file_eq (filename : String) (fileOpts : Option FromFileOptions)
    (nativeResult : Ptr) (lastError : String) (hm : hasNul filename = false) :
    new_from_file filename fileOpts nativeResult lastError =
      if nativeResult = 0 then Except.error (Error.ImageLoadError lastError)
      else Except.ok (VipsImage.mk nativeResult none) := by
  cases fileOpts <;>
    simp only [new_from_file, c_string_ok filename hm, c_string_memory,
      c_string_access, except_bind_ok, except_pure_ok]

theorem new_from_svg_eq (filename : String) (svgOpts : Option FromSvgOptions)
    (status : Int) (outputImage : Ptr) (lastError : String)
    (hm : hasNul filename = false) :
    new_from_svg filename svgOpts status outputImage lastError =
      if status ≠ 0 ∨ outputImage = 0 then
        Except.error (Error.ImageLoadError lastError)
      else Except.ok (VipsImage.mk outputImage none) := by
  cases svgOpts <;>
    simp only [new_from_svg, c_string_ok filename hm, c_string_dpi,
      c_string_scale, c_string_unlimited, c_string_flags, c_string_memory,
      c_string_access, c_string_fail_on, c_string_revalidate,
      except_bind_ok, except_pure_ok]

theorem new_from_image_eq (image : VipsImage) (bands : List Float)
    (nativeResult : Ptr) (lastError : String) :
    new_from_image image bands nativeResult lastError =
      if nativeResult = 0 then Except.error (Error.ImageLoadError lastError)
      else Except.ok (VipsImage.mk nativeResult none) := rfl

theorem cleanupTrace_nonnull (h : VipsImage) (hp : h.ptr ≠ 0) :
    cleanupTrace h = [NativeEvent.setKill h.ptr, NativeEvent.unref h.ptr] := by
  simp [cleanupTrace, killTrace, hp]

theorem cleanupTrace_null (h : VipsImage) (hp : h.ptr = 0) :
    cleanupTrace h = [NativeEvent.setKill h.ptr] := by
  simp [cleanupTrace, killTrace, hp]

theorem releaseCount_cleanupTrace (h : VipsImage) :
    releaseCount (cleanupTrace h) h.ptr = if h.ptr ≠ 0 then 1 else 0 := by
  by_cases hp : h.ptr ≠ 0 <;>
    simp [cleanupTrace, releaseCount_append, releaseCount_killTrace, hp,
      releaseCount, List.countP, List.countP.go]

theorem cleanup_killFlag (s : GObjectState) (h : VipsImage) :
    (h.cleanup s).killFlag =
      fun q => if q = h.ptr then true else s.killFlag q := by
  funext q
  by_cases hp : h.ptr = 0 <;> by_cases hq : q = h.ptr <;>
    simp [VipsImage.cleanup, VipsImage.kill, vips_image_set_kill,
      g_object_unref, hp, hq]

theorem cleanup_refcount (s : GObjectState) (h : VipsImage) :
    (h.cleanup s).refcount =
      fun q => if h.ptr ≠ 0 ∧ q = h.ptr then s.refcount q - 1
               else s.refcount q := by
  funext q
  by_cases hp : h.ptr = 0 <;> by_cases hq : q = h.ptr <;>
    simp [VipsImage.cleanup, VipsImage.kill, vips_image_set_kill,
      g_object_unref, hp, hq]

theorem GObjectState_eq (a b : GObjectState) (hr : a.refcount = b.refcount)
    (hk : a.killFlag = b.killFlag) : a = b := by
  cases a; cases b; simp_all

mutual

theorem VipsImage.clone_eq : (h : VipsImage) → h.clone = h
  | .mk p cs => by rw [VipsImage.clone, cloneChildren_eq]

theorem cloneChildren_eq : (cs : Option (List VipsImage)) → cloneChildren cs = cs
  | none => rfl
  | some l => by rw [cloneChildren, cloneList_eq]

theorem cloneList_eq : (l : List VipsImage) → cloneList l = l
  | [] => rfl
  | x :: xs => by rw [cloneList, VipsImage.clone_eq x, cloneList_eq xs]

end

/-! ## Claims -/

/-- C7: for every heap (one point in time) and every handle, `get_dimensions`
returns exactly the pair `(get_width, get_height)` of that same handle. -/
theorem get_dimensions_eq_width_height (heap : Heap) (h : VipsImage) :
    h.get_dimensions heap = (h.get_width heap, h.get_height heap) := rfl

/-- C9: for every handle, band slice and native outcome, `new_from_self` is
exactly `new_from_image` applied to that handle and slice: the two entry
points are one and the same construction. -/
theorem new_from_self_eq_new_from_image (h : VipsImage) (bands : List Float)
    (nativeResult : Ptr) (lastError : String) :
    h.new_from_self bands nativeResult lastError =
      new_from_image h bands nativeResult lastError := rfl

/-- C2 counterexample: `cleanup` twice is NOT the same as `cleanup` once.  For
the concrete handle wrapping pointer `1` with reference count `1`, one
`cleanup` leaves the count at `0` and a second drops it to `-1`: the null
check cannot guard the second release because `cleanup` takes `&self` and
never nulls the stored pointer. -/
theorem cleanup_not_idempotent :
    (sampleHandle.cleanup (sampleHandle.cleanup sampleState)).refcount
        sampleHandle.ptr ≠
      (sampleHandle.cleanup sampleState).refcount sampleHandle.ptr := by
  decide

/-- C2 amended: `cleanup` is idempotent only for a handle whose stored pointer
is null; for a handle with a non-null pointer the second `cleanup` decrements
the native reference count once more (double release), while the kill flags
are unchanged by the repetition. -/
theorem cleanup_idempotent_only_for_null (s : GObjectState) (h : VipsImage) :
    (h.ptr = 0 → h.cleanup (h.cleanup s) = h.cleanup s) ∧
    (h.ptr ≠ 0 →
      (h.cleanup (h.cleanup s)).refcount h.ptr =
        (h.cleanup s).refcount h.ptr - 1) ∧
    (h.cleanup (h.cleanup s)).killFlag = (h.cleanup s).killFlag := by
  have hk : (h.cleanup (h.cleanup s)).killFlag = (h.cleanup s).killFlag := by
    funext q
    rw [cleanup_killFlag, cleanup_killFlag]
    by_cases hq : q = h.ptr <;> simp [hq, cleanup_killFlag]
  refine ⟨?_, ?_, hk⟩
  · intro hp
    refine GObjectState_eq _ _ ?_ hk
    funext q
    rw [cleanup_refcount, cleanup_refcount]
    simp [hp]
  · intro hp
    rw [cleanup_refcount]
    simp [hp]

/-- C2 amended, witness: at the concrete null-pointer handle the double
`cleanup` collapses to one; at the concrete handle wrapping pointer `1` with
count `1` the second `cleanup` drops the count from `0` to `-1`. -/
theorem cleanup_idempotent_only_for_null_witness :
    (nullHandle.cleanup (nullHandle.cleanup sampleState) =
      nullHandle.cleanup sampleState) ∧
    ((sampleHandle.cleanup (sampleHandle.cleanup sampleState)).refcount
        sampleHandle.ptr =
      (sampleHandle.cleanup sampleState).refcount sampleHandle.ptr - 1) :=
  ⟨(cleanup_idempotent_only_for_null sampleState nullHandle).1 rfl,
   (cleanup_idempotent_only_for_null sampleState sampleHandle).2.1 (by decide)⟩

/-- C1: over a handle's lifetime — `kill` called any number `n` of times and
then the one `cleanup` run by destruction — the native reference the handle
wraps is released at most once, and exactly once when the stored pointer is
non-null (as every constructed handle's is). -/
theorem release_at_most_once (n : Nat) (h : VipsImage) :
    releaseCount (lifetimeTrace n h) h.ptr ≤ 1 ∧
    (h.ptr ≠ 0 → releaseCount (lifetimeTrace n h) h.ptr = 1) := by
  have key : releaseCount (lifetimeTrace n h) h.ptr =
      if h.ptr ≠ 0 then 1 else 0 := by
    rw [lifetimeTrace, releaseCount_append, releaseCount_kills, dropTrace,
      releaseCount_cleanupTrace, Nat.zero_add]
  constructor
  · rw [key]; by_cases hp : h.ptr ≠ 0 <;> simp [hp]
  · intro hp; rw [key, if_pos hp]

/-- C1 witness: the handle wrapping pointer `5`, killed three times before
destruction, releases its reference exactly once. -/
theorem release_at_most_once_witness :
    releaseCount (lifetimeTrace 3 (VipsImage.mk 5 none))
        (VipsImage.mk 5 none).ptr ≤ 1 ∧
    releaseCount (lifetimeTrace 3 (VipsImage.mk 5 none))
        (VipsImage.mk 5 none).ptr = 1 :=
  ⟨(release_at_most_once 3 (VipsImage.mk 5 none)).1,
   (release_at_most_once 3 (VipsImage.mk 5 none)).2 (by decide)⟩

/-- C8: `cleanup` (and hence destruction, whose trace is the same) performs
its two phases in a fixed order — the kill signal is the first native call,
and the release follows it, only when the stored pointer is non-null; the
release is never performed before the kill signal. -/
theorem cleanup_signal_then_release (h : VipsImage) :
    (cleanupTrace h).head? = some (NativeEvent.setKill h.ptr) ∧
    (h.ptr ≠ 0 →
      cleanupTrace h = [NativeEvent.setKill h.ptr, NativeEvent.unref h.ptr]) ∧
    (h.ptr = 0 → cleanupTrace h = [NativeEvent.setKill h.ptr]) ∧
    dropTrace h = cleanupTrace h := by
  refine ⟨?_, fun hp => cleanupTrace_nonnull h hp,
    fun hp => cleanupTrace_null h hp, rfl⟩
  simp [cleanupTrace, killTrace]

/-- C8 witness: for the concrete handles wrapping pointers `5` and `0`, the
traces are exactly kill-then-release and kill-only respectively. -/
theorem cleanup_signal_then_release_witness :
    cleanupTrace (VipsImage.mk 5 none) =
      [NativeEvent.setKill 5, NativeEvent.unref 5] ∧
    cleanupTrace (VipsImage.mk 0 none) = [NativeEvent.setKill 0] :=
  ⟨(cleanup_signal_then_release (VipsImage.mk 5 none)).2.1 (by decide),
   (cleanup_signal_then_release (VipsImage.mk 0 none)).2.2.1 rfl⟩

/-- C3: on every construction path (file, SVG, derived-from-handle), when the
filename marshals, a successful native call yields a handle wrapping the
non-null native pointer with an empty kept-alive children list, and a failed
native call yields no handle but `ImageLoadError` carrying the engine's
diagnostic message. -/
theorem construction_paths_spec (filename : String)
    (fileOpts : Option FromFileOptions) (svgOpts : Option FromSvgOptions)
    (src : VipsImage) (bands : List Float) (nativeResult : Ptr) (status : Int)
    (lastError : String) (hm : hasNul filename = false) :
    (nativeResult ≠ 0 →
      new_from_file filename fileOpts nativeResult lastError =
        Except.ok (VipsImage.mk nativeResult none) ∧
      (VipsImage.mk nativeResult none).ptr ≠ 0 ∧
      (VipsImage.mk nativeResult none).children = none) ∧
    (nativeResult = 0 →
      new_from_file filename fileOpts nativeResult lastError =
        Except.error (Error.ImageLoadError lastError)) ∧
    (status = 0 ∧ nativeResult ≠ 0 →
      new_from_svg filename svgOpts status nativeResult lastError =
        Except.ok (VipsImage.mk nativeResult none)) ∧
    (status ≠ 0 ∨ nativeResult = 0 →
      new_from_svg filename svgOpts status nativeResult lastError =
        Except.error (Error.ImageLoadError lastError)) ∧
    (nativeResult ≠ 0 →
      new_from_image src bands nativeResult lastError =
        Except.ok (VipsImage.mk nativeResult none)) ∧
    (nativeResult = 0 →
      new_from_image src bands nativeResult lastError =
        Except.error (Error.ImageLoadError lastError)) := by
  have hf := new_from_file_eq filename fileOpts nativeResult lastError hm
  have hsvg := new_from_svg_eq filename svgOpts status nativeResult lastError hm
  have hi := new_from_image_eq src bands nativeResult lastError
  refine ⟨?_, ?_, ?_, ?_, ?_, ?_⟩
  · intro hr
    exact ⟨by rw [hf, if_neg hr], hr, rfl⟩
  · intro hr
    rw [hf, if_pos hr]
  · rintro ⟨hs, hr⟩
    rw [hsvg, if_neg (by simp [hs, hr])]
  · intro hfail
    rw [hsvg, if_pos hfail]
  · intro hr; rw [hi, if_neg hr]
  · intro hr; rw [hi, if_pos hr]

/-- C3 witness: at the filename `"data/example.jpg"`, a native outcome of
pointer `7` with status `0`, and diagnostic `"boom"` on the failing outcome
`0`, each path produces exactly the stated handle or error. -/
theorem construction_paths_spec_witness :
    (new_from_file "data/example.jpg" none 7 "boom" =
      Except.ok (VipsImage.mk 7 none) ∧
     (VipsImage.mk 7 none).ptr ≠ 0 ∧
     (VipsImage.mk 7 none).children = none) ∧
    new_from_svg "data/example.svg" none 0 7 "boom" =
      Except.ok (VipsImage.mk 7 none) ∧
    new_from_image sampleHandle [255.0, 255.0, 255.0] 0 "boom" =
      Except.error (Error.ImageLoadError "boom") :=
  ⟨(construction_paths_spec "data/example.jpg" none none sampleHandle [] 7 0
      "boom" (by decide)).1 (by decide),
   (construction_paths_spec "data/example.svg" none none sampleHandle [] 7 0
      "boom" (by decide)).2.2.1 ⟨rfl, by decide⟩,
   (construction_paths_spec "data/example.jpg" none none sampleHandle
      [255.0, 255.0, 255.0] 0 0 "boom" (by decide)).2.2.2.2.2 rfl⟩

/-- C4: when the filename marshals, an SVG load fails exactly when the native
status is nonzero or the out-pointer is null; each condition alone suffices
and both are checked, and the failure is `ImageLoadError` with the engine's
diagnostic. -/
theorem svg_failure_iff (filename : String) (options : Option FromSvgOptions)
    (status : Int) (outputImage : Ptr) (lastError : String)
    (hm : hasNul filename = false) :
    (isErr (new_from_svg filename options status outputImage lastError) =
        true ↔ (status ≠ 0 ∨ outputImage = 0)) ∧
    (status ≠ 0 →
      new_from_svg filename options status outputImage lastError =
        Except.error (Error.ImageLoadError lastError)) ∧
    (outputImage = 0 →
      new_from_svg filename options status outputImage lastError =
        Except.error (Error.ImageLoadError lastError)) := by
  have hsvg := new_from_svg_eq filename options status outputImage lastError hm
  refine ⟨?_, fun hs => by rw [hsvg, if_pos (Or.inl hs)],
    fun hr => by rw [hsvg, if_pos (Or.inr hr)]⟩
  constructor
  · intro herr
    by_contra hno
    rw [hsvg, if_neg hno] at herr
    simp [isErr] at herr
  · intro hfail
    rw [hsvg, if_pos hfail]
    rfl

/-- C4 witness: with a marshalable filename, status `1` alone fails, a null
out-pointer alone fails, and the success case does not fail. -/
theorem svg_failure_iff_witness :
    new_from_svg "a.svg" none 1 7 "oops" =
      Except.error (Error.ImageLoadError "oops") ∧
    new_from_svg "a.svg" none 0 0 "oops" =
      Except.error (Error.ImageLoadError "oops") ∧
    isErr (new_from_svg "a.svg" none 0 7 "oops") = false :=
  ⟨(svg_failure_iff "a.svg" none 1 7 "oops" (by decide)).2.1 (by decide),
   (svg_failure_iff "a.svg" none 0 0 "oops" (by decide)).2.2 rfl,
   by
    have hiff := (svg_failure_iff "a.svg" none 0 7 "oops" (by decide)).1
    cases he : isErr (new_from_svg "a.svg" none 0 7 "oops") with
    | false => rfl
    | true => exact absurd (hiff.mp he) (by decide)⟩

/-- C5: when the property name marshals, `get_blob` fails — with
`ImageMetadataError` carrying the engine's diagnostic — exactly when the
native query's status is nonzero, and on success returns an owned copy of the
native-owned byte range `[output, output+length)` whose length is the
reported length. -/
theorem get_blob_spec (h : VipsImage) (property : String) (status : Int)
    (mem : Nat → UInt8) (output : Ptr) (length : Nat) (lastError : String)
    (hm : hasNul property = false) :
    (status ≠ 0 →
      h.get_blob property status mem output length lastError =
        Except.error (Error.ImageMetadataError lastError)) ∧
    (status = 0 →
      h.get_blob property status mem output length lastError =
        Except.ok (from_raw_parts mem output length) ∧
      (from_raw_parts mem output length).length = length) ∧
    ((∃ msg, h.get_blob property status mem output length lastError =
        Except.error (Error.ImageMetadataError msg)) ↔ status ≠ 0) := by
  have hok : c_string property = Except.ok property := c_string_ok property hm
  refine ⟨?_, ?_, ?_⟩
  · intro hs
    simp [VipsImage.get_blob, hok, except_bind_ok, hs]
  · intro hs
    refine ⟨?_, ?_⟩
    · simp [VipsImage.get_blob, hok, except_bind_ok, hs]
    · simp [from_raw_parts]
  · constructor
    · rintro ⟨msg, hmsg⟩
      by_contra hs
      simp [VipsImage.get_blob, hok, except_bind_ok, hs] at hmsg
    · intro hs
      exact ⟨lastError, by simp [VipsImage.get_blob, hok, except_bind_ok, hs]⟩

/-- C5 witness: for the concrete property `"icc-profile-data"`, status `1`
gives the metadata error with the engine's message, and status `0` returns
the two bytes at addresses `10` and `11` of a concrete native memory. -/
theorem get_blob_spec_witness :
    sampleHandle.get_blob "icc-profile-data" 1
        (fun a => UInt8.ofNat a) 10 2 "no such field" =
      Except.error (Error.ImageMetadataError "no such field") ∧
    sampleHandle.get_blob "icc-profile-data" 0
        (fun a => UInt8.ofNat a) 10 2 "no such field" =
      Except.ok [UInt8.ofNat 10, UInt8.ofNat 11] ∧
    (from_raw_parts (fun a => UInt8.ofNat a) 10 2).length = 2 :=
  ⟨(get_blob_spec sampleHandle "icc-profile-data" 1 (fun a => UInt8.ofNat a)
      10 2 "no such field" (by decide)).1 (by decide),
   by
    rw [((get_blob_spec sampleHandle "icc-profile-data" 0
      (fun a => UInt8.ofNat a) 10 2 "no such field" (by decide)).2.1 rfl).1]
    rfl,
   ((get_blob_spec sampleHandle "icc-profile-data" 0 (fun a => UInt8.ofNat a)
      10 2 "no such field" (by decide)).2.1 rfl).2⟩

/-- C6: `has_property` fails exactly when the property name cannot be
marshaled, and then only with the string-conversion error; when marshaling
succeeds it returns `Ok` with whether the native engine reports a positive
GType for the name — it never returns an `ImageMetadataError`. -/
theorem has_property_spec (h : VipsImage) (typeofOracle : String → Int)
    (property : String) :
    (hasNul property = true →
      h.has_property typeofOracle property =
        Except.error Error.StringConversionError) ∧
    (hasNul property = false →
      h.has_property typeofOracle property =
        Except.ok (decide (typeofOracle property > 0))) ∧
    ((∃ e, h.has_property typeofOracle property = Except.error e) ↔
      hasNul property = true) ∧
    (∀ msg, h.has_property typeofOracle property ≠
      Except.error (Error.ImageMetadataError msg)) := by
  have hcase : ∀ hv : Bool, hasNul property = hv →
      h.has_property typeofOracle property =
        (if hv then Except.error Error.StringConversionError
         else Except.ok (decide (typeofOracle property > 0))) := by
    intro hv hval
    cases hv <;>
      simp [VipsImage.has_property, c_string, hval, except_bind_ok,
        except_bind_error]
  refine ⟨fun ht => by rw [hcase true ht]; rfl,
    fun hf => by rw [hcase false hf]; rfl, ?_, ?_⟩
  · constructor
    · rintro ⟨e, he⟩
      by_contra hf
      rw [hcase false (by simpa using hf)] at he
      exact Except.noConfusion he
    · intro ht
      exact ⟨Error.StringConversionError, by rw [hcase true ht]; rfl⟩
  · intro msg hcontra
    cases hv : hasNul property <;> rw [hcase _ hv] at hcontra
    · exact Except.noConfusion hcontra
    · simp at hcontra

/-- C6 witness: a plain name marshals and reports existence from the oracle;
a name with an embedded NUL fails with the string-conversion error and with
nothing else. -/
theorem has_property_spec_witness :
    sampleHandle.has_property (fun _ => 3) "icc-profile-data" =
      Except.ok true ∧
    sampleHandle.has_property (fun _ => 3)
        (String.mk [Char.ofNat 97, Char.ofNat 0]) =
      Except.error Error.StringConversionError ∧
    sampleHandle.has_property (fun _ => 3) "icc-profile-data" ≠
      Except.error (Error.ImageMetadataError "boom") :=
  ⟨by
    rw [(has_property_spec sampleHandle (fun _ => 3) "icc-profile-data").2.1
      (by decide)]
    rfl,
   (has_property_spec sampleHandle (fun _ => 3)
      (String.mk [Char.ofNat 97, Char.ofNat 0])).1 (by decide),
   (has_property_spec sampleHandle (fun _ => 3) "icc-profile-data").2.2.2
     "boom"⟩

/-- C10: the handle type is cloneable; a clone's native pointer is identical
to the original's, its kept-alive children list is an equal copy, and the
clone and the original each perform the same kill-then-release of that same
native reference at their own destruction. -/
theorem clone_spec (h : VipsImage) :
    h.clone.ptr = h.ptr ∧
    h.clone.children = h.children ∧
    dropTrace h.clone = dropTrace h ∧
    (h.ptr ≠ 0 →
      dropTrace h.clone =
        [NativeEvent.setKill h.ptr, NativeEvent.unref h.ptr] ∧
      dropTrace h = [NativeEvent.setKill h.ptr, NativeEvent.unref h.ptr]) := by
  have hc := h.clone_eq
  refine ⟨by rw [hc], by rw [hc], by rw [hc], fun hp => ?_⟩
  rw [hc]
  have := cleanupTrace_nonnull h hp
  exact ⟨this, this⟩

/-- C10 witness: cloning a concrete handle (pointer `5`, one kept-alive child)
copies the pointer and the child list, and both copies' destruction traces
are kill-then-release of pointer `5`. -/
theorem clone_spec_witness :
    (VipsImage.mk 5 (some [VipsImage.mk 7 none])).clone.ptr = 5 ∧
    (VipsImage.mk 5 (some [VipsImage.mk 7 none])).clone.children =
      some [VipsImage.mk 7 none] ∧
    dropTrace (VipsImage.mk 5 (some [VipsImage.mk 7 none])).clone =
      [NativeEvent.setKill 5, NativeEvent.unref 5] :=
  ⟨(clone_spec (VipsImage.mk 5 (some [VipsImage.mk 7 none]))).1,
   (clone_spec (VipsImage.mk 5 (some [VipsImage.mk 7 none]))).2.1,
   ((clone_spec (VipsImage.mk 5 (some [VipsImage.mk 7 none]))).2.2.2
     (by decide)).1⟩

end PicturiumLibvips
